import Mathlib

/-!
Shallow embedding of `src/daisy/dAISy_pub_sub.py` (edgetech-daisy).

The file models the stream reassembly and decode/normalize pipeline of the
`DAISyPubSub` class:

* `processLine` / `processLines` / `feed` / `feedAll` embed the line handling
  of `DAISyPubSub.main` (the "Sentence Reassembler"), including the misspelled
  variable `payload_beginng` in the begin-fragment branch, kept exactly as in
  the source.
* `processSerialPayload` embeds `DAISyPubSub.process_serial_payload`:
  the unconditional raw publish, the `decode` call, the per-message-type
  normalization dictionaries, and the `except UnknownMessageException` handler.
* `runLines` / `mainCycle` / `runMain` embed the poll loop of
  `DAISyPubSub.main` with Python exception semantics made explicit: an
  exception other than the ones caught propagates and aborts the loop.

External collaborators are oracles: the AIS decoder (pyais `decode`) is a
function `Line → DecodeOutcome` and the MQTT sink (`publish_to_topic` behind
`_send_data`) is a function `DataMsg → Bool`.  Python `float` arithmetic is
modelled with exact rationals (`Rat`); strings are lists of characters
(`Line`), with Python's substring test `in` embedded as `occursIn`.
-/

namespace Daisy

/-- A Python string, as a list of characters. -/
abbrev Line := List Char

/-- Helper for `occursIn`: `leadsWith l p` holds when `p` is an initial segment of `l`. -/
def leadsWith : Line → Line → Bool
  | _, [] => true
  | [], _ :: _ => false
  | c :: cs, p :: ps => c == p && leadsWith cs ps

/-- Python's substring containment `p in l`. -/
def occursIn (p : Line) : Line → Bool
  | [] => leadsWith [] p
  | c :: cs => leadsWith (c :: cs) p || occursIn p cs

/-- Test that `l` is non-empty and its last character is `c`. -/
def lastIs (c : Char) : Line → Bool
  | [] => false
  | [x] => x == c
  | _ :: x :: xs => lastIs c (x :: xs)

/-- Python's `str.split(sep)` for a one-character separator
(`serial_bytes.decode().split("\n")` in `main`). -/
def splitOnChar (c : Char) : Line → List Line
  | [] => [[]]
  | x :: xs =>
    match splitOnChar c xs with
    | [] => [[]]
    | r :: rs => if x == c then [] :: r :: rs else (x :: r) :: rs

/-- The AIS sentence marker `"AIVDM"` tested by `main`. -/
def aivdmMarker : Line := ['A', 'I', 'V', 'D', 'M']

/-- The heartbeat marker `"sync"` tested by `main`. -/
def syncMarker : Line := ['s', 'y', 'n', 'c']

/-- Python test `"AIVDM" in serial_payload`. -/
def hasMarker (l : Line) : Bool := occursIn aivdmMarker l

/-- Python test `"\r" in serial_payload`. -/
def hasCR (l : Line) : Bool := occursIn ['\r'] l

/-- Python test `"sync" in serial_payload`. -/
def hasSync (l : Line) : Bool := occursIn syncMarker l

/-- The line-local state of `DAISyPubSub.main`: the pending-buffer variable
`payload_beginning` and the variable `payload_beginng` that the begin-fragment
branch actually assigns (source line 301, spelled exactly as in the code). -/
structure LoopState where
  payload_beginning : Line
  payload_beginng : Line
deriving DecidableEq

/-- State at the top of `main`'s loop: `payload_beginning = ""`. -/
def initState : LoopState := ⟨[], []⟩

/-- One iteration of the `for serial_payload in serial_payloads` body of
`main` (source lines 290-308), viewed as the Sentence Reassembler: it returns
the new state and the sentences handed to `process_serial_payload`. -/
def processLine (st : LoopState) (l : Line) : LoopState × List Line :=
  if hasMarker l && hasCR l then
    -- Payload is required and complete
    (st, [l])
  else if hasSync l then
    -- Payload is not required
    (st, [])
  else if hasMarker l then
    -- Payload is required, but not complete: beginning only
    ({ st with payload_beginng := l }, [])
  else if st.payload_beginning ≠ [] then
    -- Payload is required, but not complete: ending only
    ({ st with payload_beginning := [] }, [st.payload_beginning ++ l])
  else
    (st, [])

/-- Fold `processLine` over the lines of a chunk. -/
def processLines (st : LoopState) : List Line → LoopState × List Line
  | [] => (st, [])
  | l :: ls =>
    let r1 := processLine st l
    let r2 := processLines r1.1 ls
    (r2.1, r1.2 ++ r2.2)

/-- Feed one raw chunk: split on `"\n"` and process every line. -/
def feed (st : LoopState) (chunk : Line) : LoopState × List Line :=
  processLines st (splitOnChar '\n' chunk)

/-- Feed a sequence of raw chunks. -/
def feedAll (st : LoopState) : List Line → LoopState × List Line
  | [] => (st, [])
  | c :: cs =>
    let r1 := feed st c
    let r2 := feedAll r1.1 cs
    (r2.1, r1.2 ++ r2.2)

/-- Decoded field values placed in `processed_payload` (Python ints, floats,
strings and bools; floats modelled as exact rationals). -/
inductive Value
  | int (i : Int)
  | rat (q : Rat)
  | str (s : String)
  | bool (b : Bool)
deriving DecidableEq

/-- The dictionary keys used by `process_serial_payload` when building
`processed_payload`. -/
inductive FieldKey
  | mmsi | latitude | longitude | altitude | horizontal_speed | course
  | vertical_speed | second | status | turn | accuracy | heading | maneuver
  | year | month | day | hour | minute
deriving DecidableEq

/-- The dict `processed_payload`, as an insertion-ordered association
list (`json.dumps` serializes it in this order). -/
abbrev ProcessedPayload := List (FieldKey × Value)

/-- Dict lookup in a `ProcessedPayload`. -/
def getField (pp : ProcessedPayload) (k : FieldKey) : Option Value :=
  match pp with
  | [] => none
  | (k', v) :: rest => if k' = k then some v else getField rest k

/-- Fields of a decoded pyais `MessageType1`/`MessageType2`/`MessageType3`
(Class A position report) read by `process_serial_payload`. -/
structure ClassAMsg where
  mmsi : Int
  lat : Rat
  lon : Rat
  speed : Rat
  course : Rat
  second : Int
  status : String
  turn : Rat
  accuracy : Bool
  heading : Int
  maneuver : Int
deriving DecidableEq

/-- Fields of a decoded pyais `MessageType4` (base station report) read by
`process_serial_payload`. -/
structure BaseStationMsg where
  mmsi : Int
  lat : Rat
  lon : Rat
  year : Int
  month : Int
  day : Int
  hour : Int
  minute : Int
  second : Int
  accuracy : Bool
deriving DecidableEq

/-- Fields of a decoded pyais `MessageType18` (Class B position report) read
by `process_serial_payload`. -/
structure ClassBMsg where
  mmsi : Int
  lat : Rat
  lon : Rat
  speed : Rat
  course : Rat
  second : Int
  accuracy : Bool
  heading : Int
deriving DecidableEq

/-- A successfully decoded pyais message, tagged by its Python class
(`type(decoded_payload)`).  `other` covers every decoded class different from
`MessageType1/2/3/4/18`, carrying the name of that class. -/
inductive DecodedMessage
  | type1 (d : ClassAMsg)
  | type2 (d : ClassAMsg)
  | type3 (d : ClassAMsg)
  | type4 (d : BaseStationMsg)
  | type18 (d : ClassBMsg)
  | other (className : String)
deriving DecidableEq

/-- A Python exception, identified by its class name and message. -/
structure PyExc where
  className : String
  msg : String
deriving DecidableEq

/-- Outcome of the external `pyais.decode` call on a sentence: a decoded
message, an `UnknownMessageException` (the only class the code catches), or
an exception of any other class. -/
inductive DecodeOutcome
  | ok (m : DecodedMessage)
  | unknownMessageExc (msg : String)
  | otherExc (e : PyExc)
deriving DecidableEq

/-- The two data messages handed to `_send_data`: the raw sentence
(`"Binary AIS"`) and the processed payload (`"Decoded AIS"`). -/
inductive DataMsg
  | binary (payload : Line)
  | decoded (payload : ProcessedPayload)
deriving DecidableEq

/-- Observable actions of the pipeline, in program order. -/
inductive Event
  | sendData (d : DataMsg)
  | logSendResult (success : Bool) (d : DataMsg)
  | decodeCall (payload : Line)
  | logSkip (className : String)
  | logDecodeError (msg : String)
  | logReadWarning (msg : String)
  | disconnectSerial
  | logKeyboardInterrupt
deriving DecidableEq

/-- Embedding of `_send_data` (source lines 112-151): publish the message to the sink and
log the boolean outcome; the sink is an oracle `DataMsg → Bool`. -/
def sendData (sink : DataMsg → Bool) (d : DataMsg) : List Event :=
  [Event.sendData d, Event.logSendResult (sink d) d]

/-- The `processed_payload` dict built for `MessageType1/2/3` (source lines
177-201), keys in insertion order. -/
def classAPayload (d : ClassAMsg) : ProcessedPayload :=
  [(FieldKey.mmsi, Value.int d.mmsi),
   (FieldKey.latitude, Value.rat (d.lat * 10000 / 60)),
   (FieldKey.longitude, Value.rat (d.lon * 10000 / 60)),
   (FieldKey.altitude, Value.rat 0),
   (FieldKey.horizontal_speed, Value.rat (d.speed * 1852 / 3600)),
   (FieldKey.course, Value.rat d.course),
   (FieldKey.vertical_speed, Value.rat 0),
   (FieldKey.second, Value.int d.second),
   (FieldKey.status, Value.str d.status),
   (FieldKey.turn, Value.rat d.turn),
   (FieldKey.accuracy, Value.bool d.accuracy),
   (FieldKey.heading, Value.int d.heading),
   (FieldKey.maneuver, Value.int d.maneuver)]

/-- The `processed_payload` dict built for `MessageType4` (source lines
203-226): `lat`/`lon` are passed through without the `* 10000 / 60`
conversion, `horizontal_speed` and `course` are the constant `0.0`. -/
def baseStationPayload (d : BaseStationMsg) : ProcessedPayload :=
  [(FieldKey.mmsi, Value.int d.mmsi),
   (FieldKey.latitude, Value.rat d.lat),
   (FieldKey.longitude, Value.rat d.lon),
   (FieldKey.altitude, Value.rat 0),
   (FieldKey.horizontal_speed, Value.rat 0),
   (FieldKey.course, Value.rat 0),
   (FieldKey.vertical_speed, Value.rat 0),
   (FieldKey.year, Value.int d.year),
   (FieldKey.month, Value.int d.month),
   (FieldKey.day, Value.int d.day),
   (FieldKey.hour, Value.int d.hour),
   (FieldKey.minute, Value.int d.minute),
   (FieldKey.second, Value.int d.second),
   (FieldKey.accuracy, Value.bool d.accuracy)]

/-- The `processed_payload` dict built for `MessageType18` (source lines
228-249). -/
def classBPayload (d : ClassBMsg) : ProcessedPayload :=
  [(FieldKey.mmsi, Value.int d.mmsi),
   (FieldKey.latitude, Value.rat (d.lat * 10000 / 60)),
   (FieldKey.longitude, Value.rat (d.lon * 10000 / 60)),
   (FieldKey.altitude, Value.rat 0),
   (FieldKey.horizontal_speed, Value.rat (d.speed * 1852 / 3600)),
   (FieldKey.course, Value.rat d.course),
   (FieldKey.vertical_speed, Value.rat 0),
   (FieldKey.second, Value.int d.second),
   (FieldKey.accuracy, Value.bool d.accuracy),
   (FieldKey.heading, Value.int d.heading)]

/-- The value of `processed_payload` after the `if`/`elif`/`else` chain of
`process_serial_payload`: for any unsupported class it stays the empty dict
`{}` initialized at source line 175. -/
def processedPayloadOf : DecodedMessage → ProcessedPayload
  | .type1 d => classAPayload d
  | .type2 d => classAPayload d
  | .type3 d => classAPayload d
  | .type4 d => baseStationPayload d
  | .type18 d => classBPayload d
  | .other _ => []

/-- The `logging.info` emitted by the `else` arm of the chain (source line
252) — only for unsupported classes. -/
def skipLogOf : DecodedMessage → List Event
  | .other n => [Event.logSkip n]
  | _ => []

/-- Embedding of `process_serial_payload` (source lines 153-263): publish the raw
sentence, call `decode`, build `processed_payload` and publish it as
`"Decoded AIS"`.  Only `UnknownMessageException` is caught (line 262); an
exception of any other class escapes, returned as `some e`.  Note that the
`"Decoded AIS"` `_send_data` call at lines 255-260 sits OUTSIDE the
`if`/`elif`/`else` chain, so it also runs for unsupported classes, with the
empty dict as payload. -/
def processSerialPayload (sink : DataMsg → Bool) (dec : DecodeOutcome)
    (binaryPayload : Line) : List Event × Option PyExc :=
  let rawEvs := sendData sink (DataMsg.binary binaryPayload)
  match dec with
  | .otherExc e => (rawEvs ++ [Event.decodeCall binaryPayload], some e)
  | .unknownMessageExc m =>
    (rawEvs ++ [Event.decodeCall binaryPayload, Event.logDecodeError m], none)
  | .ok m =>
    let pp := processedPayloadOf m
    (rawEvs ++ [Event.decodeCall binaryPayload] ++ skipLogOf m
      ++ sendData sink (DataMsg.decoded pp), none)

/-- The `for serial_payload in serial_payloads` loop of `main` (source lines
290-308), with `process_serial_payload` inlined at its two call sites.  An
escaping exception stops the remaining lines (Python `for` unwinds); the
returned `Option PyExc` is the exception escaping the loop body, if any. -/
def runLines (decodeOf : Line → DecodeOutcome) (sink : DataMsg → Bool) :
    LoopState → List Line → LoopState × List Event × Option PyExc
  | st, [] => (st, [], none)
  | st, l :: ls =>
    if hasMarker l && hasCR l then
      -- Payload is required and complete
      let r := processSerialPayload sink (decodeOf l) l
      match r.2 with
      | some e => (st, r.1, some e)
      | none =>
        let rest := runLines decodeOf sink st ls
        (rest.1, r.1 ++ rest.2.1, rest.2.2)
    else if hasSync l then
      -- Payload is not required
      runLines decodeOf sink st ls
    else if hasMarker l then
      -- Payload is required, but not complete: beginning only
      runLines decodeOf sink { st with payload_beginng := l } ls
    else if st.payload_beginning ≠ [] then
      -- Payload is required, but not complete: ending only
      let s := st.payload_beginning ++ l
      let r := processSerialPayload sink (decodeOf s) s
      match r.2 with
      | some e => (st, r.1, some e)  -- exception before `payload_beginning = ""`
      | none =>
        let rest := runLines decodeOf sink { st with payload_beginning := [] } ls
        (rest.1, r.1 ++ rest.2.1, rest.2.2)
    else
      runLines decodeOf sink st ls

/-- What happens to the loop during one cycle of `while True` (source lines
276-320), as seen from outside: no serial data waiting, a failing serial
read (caught at lines 282-286), a chunk of serial bytes, or a
`KeyboardInterrupt` delivered during the cycle. -/
inductive CycleInput
  | noData
  | readError (msg : String)
  | chunk (bytes : Line)
  | keyboardInterrupt
deriving DecidableEq

/-- Result of one cycle of the `while True` loop. -/
inductive StepResult
  | cont (st : LoopState) (evs : List Event)
  | exit (evs : List Event)
  | crash (e : PyExc) (evs : List Event)
deriving DecidableEq

/-- One cycle of the `while True` loop of `main`: a read error is logged and the
cycle continues (`continue` at line 286); an exception escaping the line
loop is caught only if it is a `KeyboardInterrupt` (line 316) — any other
exception propagates out of `main` and the loop crashes. -/
def mainCycle (decodeOf : Line → DecodeOutcome) (sink : DataMsg → Bool)
    (st : LoopState) : CycleInput → StepResult
  | .noData => .cont st []
  | .readError m => .cont st [Event.logReadWarning m]
  | .chunk bytes =>
    let r := runLines decodeOf sink st (splitOnChar '\n' bytes)
    match r.2.2 with
    | some e => .crash e r.2.1
    | none => .cont r.1 r.2.1
  | .keyboardInterrupt =>
    .exit [Event.disconnectSerial, Event.logKeyboardInterrupt]

/-- How a run of `main` ends after a finite list of cycle inputs: still
polling, exited via the `KeyboardInterrupt` handler (`sys.exit()` at line
320), or crashed on an uncaught exception. -/
inductive RunOutcome
  | running (st : LoopState)
  | exited
  | crashed (e : PyExc)
deriving DecidableEq

/-- Run the `while True` loop of `main` over a finite list of cycle inputs,
collecting the event trace. -/
def runMain (decodeOf : Line → DecodeOutcome) (sink : DataMsg → Bool) :
    LoopState → List CycleInput → RunOutcome × List Event
  | st, [] => (.running st, [])
  | st, i :: is =>
    match mainCycle decodeOf sink st i with
    | .cont st' evs =>
      let r := runMain decodeOf sink st' is
      (r.1, evs ++ r.2)
    | .exit evs => (.exited, evs)
    | .crash e evs => (.crashed e, evs)

/-- Is this event a `"Binary AIS"` (raw sentence) publish? -/
def isRawPub : Event → Bool
  | .sendData (.binary _) => true
  | _ => false

/-- Is this event a `"Decoded AIS"` (processed payload) publish? -/
def isDecodedPub : Event → Bool
  | .sendData (.decoded _) => true
  | _ => false

/-- Is this event a publish of either kind? -/
def isPub : Event → Bool
  | .sendData _ => true
  | _ => false

/-- Is this event the `logging.error` of the decode handler (line 263)? -/
def isDecodeErrorLog : Event → Bool
  | .logDecodeError _ => true
  | _ => false

/-- A complete AIS sentence: marker present, terminated by `"\r"`. -/
def sampleS : Line := "!AIVDM,1,1,,B,abc,0*1A\r".data

/-- `sampleS` cut at the grammar boundary: the part before the terminator. -/
def sampleBegin : Line := "!AIVDM,1,1,,B,abc,0*1A".data

/-- `sampleS` cut at the grammar boundary: the terminator itself. -/
def sampleEnd : Line := "\r".data

/-- A begin-fragment (marker, no terminator) that never completes. -/
def fragA : Line := "!AIVDM,1,2,1,A,frag1".data

/-- A second begin-fragment, arriving after `fragA`. -/
def fragB : Line := "!AIVDM,1,2,1,B,frag2".data

/-- An end-fragment (no marker, no sync marker, carries the terminator). -/
def fragE : Line := ",0*5C\r".data

/-- Decoder oracle that always raises an exception that is NOT an
`UnknownMessageException` (pyais raises e.g. `ValueError` on bad checksums
and `InvalidNMEAMessageException` on malformed sentences). -/
def valueErrorDecode : Line → DecodeOutcome :=
  fun _ => .otherExc ⟨"ValueError", "Invalid checksum"⟩

/-- Decoder oracle that always raises `UnknownMessageException`. -/
def unknownExcDecode : Line → DecodeOutcome :=
  fun _ => .unknownMessageExc "Unknown message type"

/-- Sink oracle for which every publish succeeds. -/
def allOkSink : DataMsg → Bool := fun _ => true

/-- Sink oracle for which every publish fails. -/
def allFailSink : DataMsg → Bool := fun _ => false

/-- The events produced by `process_serial_payload` for a sentence whose
payload fails to decode with `UnknownMessageException`. -/
def decodeFailEvents (sink : DataMsg → Bool) (l : Line) (m : String) : List Event :=
  [Event.sendData (.binary l), Event.logSendResult (sink (.binary l)) (.binary l),
   Event.decodeCall l, Event.logDecodeError m]

/-- Matching on the second component of `leadsWith` never blocks: an empty
pattern is an initial segment of anything. -/
theorem leadsWith_nil (l : Line) : leadsWith l [] = true := by
  cases l <;> rfl

/-- A line whose last character is `c` contains `c` as a substring. -/
theorem lastIs_occursIn (c : Char) : ∀ l : Line, lastIs c l = true → occursIn [c] l = true := by
  intro l
  induction l with
  | nil => intro h; exact absurd h (by simp [lastIs])
  | cons x xs ih =>
    cases xs with
    | nil =>
      intro h
      simp only [lastIs] at h
      simp [occursIn, leadsWith, h]
    | cons y ys =>
      intro h
      have h2 : occursIn [c] (y :: ys) = true := ih h
      have hstep : occursIn [c] (x :: y :: ys)
          = (leadsWith (x :: y :: ys) [c] || occursIn [c] (y :: ys)) := rfl
      rw [hstep, h2, Bool.or_true]

/-- The only exception that can escape `process_serial_payload` is one the
decoder raised outside the `UnknownMessageException` class. -/
theorem psp_exc_none (sink : DataMsg → Bool) (dec : DecodeOutcome) (bp : Line)
    (h : ∀ e, dec ≠ DecodeOutcome.otherExc e) :
    (processSerialPayload sink dec bp).2 = none := by
  cases dec with
  | ok m => rfl
  | unknownMessageExc m => rfl
  | otherExc e => exact absurd rfl (h e)

/-- If the decoder never raises outside the `UnknownMessageException` class,
no exception escapes the line-processing loop. -/
theorem runLines_exc_none (decodeOf : Line → DecodeOutcome) (sink : DataMsg → Bool)
    (h : ∀ l e, decodeOf l ≠ DecodeOutcome.otherExc e) :
    ∀ (ls : List Line) (st : LoopState), (runLines decodeOf sink st ls).2.2 = none := by
  intro ls
  induction ls with
  | nil => intro st; rfl
  | cons l ls ih =>
    intro st
    have hre : ∀ s bp : Line, (processSerialPayload sink (decodeOf s) bp).2 = none :=
      fun s bp => psp_exc_none sink (decodeOf s) bp (h s)
    simp only [runLines]
    split_ifs with h1 h2 h3 h4
    · simp only [hre]
      exact ih st
    · exact ih st
    · exact ih _
    · simp only [hre]
      exact ih _
    · exact ih st

/-- With an empty pending buffer, processing a list of lines emits exactly
the complete lines (marker and terminator present) and leaves the pending
buffer empty. -/
theorem processLines_empty_pending :
    ∀ (ls : List Line) (st : LoopState), st.payload_beginning = [] →
      (processLines st ls).1.payload_beginning = []
      ∧ (processLines st ls).2 = ls.filter (fun l => hasMarker l && hasCR l) := by
  intro ls
  induction ls with
  | nil => intro st h; exact ⟨h, rfl⟩
  | cons l ls ih =>
    intro st h
    simp only [processLines, processLine]
    split_ifs with h1 h2 h3 h4
    · have := ih st h
      simp [List.filter_cons, h1, this.1, this.2]
    · have h1' : (hasMarker l && hasCR l) = false := by
        revert h1; cases hasMarker l && hasCR l <;> simp
      have := ih st h
      simp [List.filter_cons, h1', this.1, this.2]
    · have h1' : (hasMarker l && hasCR l) = false := by
        revert h1; cases hasMarker l && hasCR l <;> simp
      have := ih { st with payload_beginng := l } h
      simp [List.filter_cons, h1', this.1, this.2]
    · exact absurd h h4
    · have h1' : (hasMarker l && hasCR l) = false := by
        revert h1; cases hasMarker l && hasCR l <;> simp
      have := ih st h
      simp [List.filter_cons, h1', this.1, this.2]

/-- Claim C1 (code bug evidence): for a successfully decoded message of an
unsupported class (`Other`), `process_serial_payload` nevertheless executes
the `"Decoded AIS"` publish — the `_send_data` call at source lines 255-260
sits outside the `if`/`elif`/`else` chain, so one raw publish, the
"Skipping message type" log, AND one decoded publish carrying the empty dict
all occur, contradicting "no normalized record is published". -/
theorem c1_unsupported_variant_still_published :
    (processSerialPayload allOkSink (.ok (.other "MessageType5")) sampleS).1
      = [Event.sendData (.binary sampleS), Event.logSendResult true (.binary sampleS),
         Event.decodeCall sampleS, Event.logSkip "MessageType5",
         Event.sendData (.decoded []), Event.logSendResult true (.decoded [])]
    ∧ List.countP isDecodedPub
        (processSerialPayload allOkSink (.ok (.other "MessageType5")) sampleS).1 = 1
    ∧ List.countP isRawPub
        (processSerialPayload allOkSink (.ok (.other "MessageType5")) sampleS).1 = 1 := by
  decide

/-- Claim C2 (code bug evidence): the complete sentence `sampleS` matches the
begin/end grammar and, fed as a single chunk, is emitted once; fed split at
the grammar boundary into the begin-fragment `sampleBegin` and the
end-fragment `sampleEnd`, nothing is ever emitted — the begin-fragment
branch stores into the misspelled variable `payload_beginng`, so the
end-fragment branch (guarded by `payload_beginning != ""`) never fires. -/
theorem c2_split_feed_drops_sentence :
    (hasMarker sampleS = true ∧ lastIs '\r' sampleS = true)
    ∧ sampleS = sampleBegin ++ sampleEnd
    ∧ (hasMarker sampleBegin = true ∧ hasCR sampleBegin = false)
    ∧ (feed initState sampleS).2 = [sampleS]
    ∧ (feedAll initState [sampleBegin, sampleEnd]).2 = [] := by
  decide

/-- Claim C3 (code bug evidence): feeding begin-fragment `fragA`, then
begin-fragment `fragB`, then end-fragment `fragE` emits nothing at all —
not the single sentence `fragB ++ fragE` the overwrite policy promises —
because the begin-fragment branch assigns the misspelled `payload_beginng`
and the pending buffer `payload_beginning` stays empty. -/
theorem c3_overwrite_policy_never_engages :
    (hasMarker fragA = true ∧ hasCR fragA = false)
    ∧ (hasMarker fragB = true ∧ hasCR fragB = false)
    ∧ (hasMarker fragE = false ∧ hasSync fragE = false ∧ hasCR fragE = true)
    ∧ (feedAll initState [fragA, fragB, fragE]).2 = []
    ∧ (feedAll initState [fragA, fragB, fragE]).2 ≠ [fragB ++ fragE] := by
  decide

/-- Claim C4 (counterexample): a decoder fault outside the
`UnknownMessageException` class — pyais raises e.g. `ValueError` on a bad
checksum — escapes `process_serial_payload` (only `UnknownMessageException`
is caught at source line 262), is not caught by the `except
KeyboardInterrupt` handler of `main`, and aborts the poll loop; so the
fatal interrupt is NOT the only condition that stops the loop. -/
theorem c4_decoder_fault_aborts_loop :
    (runMain valueErrorDecode allOkSink initState [CycleInput.chunk sampleS]).1
      = RunOutcome.crashed ⟨"ValueError", "Invalid checksum"⟩ := by
  decide

/-- Claim C4 (amended): if every decoder fault is of the
`UnknownMessageException` class — the only decode failure the code
anticipates — then every failure other than the external fatal interrupt
(read errors, decode failures, publish failures) is contained and the run
never crashes, whatever the cycle inputs and sink outcomes. -/
theorem c4_containment_without_foreign_exc (decodeOf : Line → DecodeOutcome)
    (sink : DataMsg → Bool)
    (h : ∀ l e, decodeOf l ≠ DecodeOutcome.otherExc e) :
    ∀ (inputs : List CycleInput) (st : LoopState) (e : PyExc),
      (runMain decodeOf sink st inputs).1 ≠ RunOutcome.crashed e := by
  intro inputs
  induction inputs with
  | nil => intro st e; simp [runMain]
  | cons i is ih =>
    intro st e
    cases i with
    | noData =>
      simp only [runMain, mainCycle]
      exact ih st e
    | readError m =>
      simp only [runMain, mainCycle]
      exact ih st e
    | chunk bytes =>
      simp only [runMain, mainCycle, runLines_exc_none decodeOf sink h]
      exact ih _ e
    | keyboardInterrupt =>
      simp only [runMain, mainCycle]
      intro hc
      exact RunOutcome.noConfusion hc

/-- Claim C4 (witness): a concrete run — a failing publish sink, a read
error, and sentences whose payloads fail to decode — does not crash the
loop. -/
theorem c4_containment_witness :
    (runMain unknownExcDecode allFailSink initState
        [CycleInput.chunk sampleS, CycleInput.readError "boom",
         CycleInput.chunk sampleS]).1
      ≠ RunOutcome.crashed ⟨"ValueError", "Invalid checksum"⟩ :=
  c4_containment_without_foreign_exc unknownExcDecode allFailSink
    (fun _ _ hx => DecodeOutcome.noConfusion hx) _ initState _

/-- Claim C5: for every decoded Class A position report (`MessageType1`,
`MessageType2`, `MessageType3`) and equally every Class B report
(`MessageType18`), the processed payload has
latitude `= raw_lat * 10000 / 60`, longitude `= raw_lon * 10000 / 60`,
horizontal_speed `= raw_speed_knots * 1852 / 3600`, course passed through
unchanged, and altitude and vertical_speed fixed at `0.0`. -/
theorem c5_position_report_normalization (a : ClassAMsg) (b : ClassBMsg) :
    (getField (processedPayloadOf (.type1 a)) .latitude = some (.rat (a.lat * 10000 / 60))
     ∧ getField (processedPayloadOf (.type1 a)) .longitude = some (.rat (a.lon * 10000 / 60))
     ∧ getField (processedPayloadOf (.type1 a)) .horizontal_speed
         = some (.rat (a.speed * 1852 / 3600))
     ∧ getField (processedPayloadOf (.type1 a)) .course = some (.rat a.course)
     ∧ getField (processedPayloadOf (.type1 a)) .altitude = some (.rat 0)
     ∧ getField (processedPayloadOf (.type1 a)) .vertical_speed = some (.rat 0))
    ∧ processedPayloadOf (.type2 a) = processedPayloadOf (.type1 a)
    ∧ processedPayloadOf (.type3 a) = processedPayloadOf (.type1 a)
    ∧ (getField (processedPayloadOf (.type18 b)) .latitude = some (.rat (b.lat * 10000 / 60))
     ∧ getField (processedPayloadOf (.type18 b)) .longitude = some (.rat (b.lon * 10000 / 60))
     ∧ getField (processedPayloadOf (.type18 b)) .horizontal_speed
         = some (.rat (b.speed * 1852 / 3600))
     ∧ getField (processedPayloadOf (.type18 b)) .course = some (.rat b.course)
     ∧ getField (processedPayloadOf (.type18 b)) .altitude = some (.rat 0)
     ∧ getField (processedPayloadOf (.type18 b)) .vertical_speed = some (.rat 0))
    ∧ (270 : Rat) * 10000 / 60 = 45000
    ∧ (10 : Rat) * 1852 / 3600 = 463 / 90 :=
  ⟨⟨rfl, rfl, rfl, rfl, rfl, rfl⟩, rfl, rfl,
   ⟨rfl, rfl, rfl, rfl, rfl, rfl⟩, by norm_num, by norm_num⟩

/-- Claim C6: for every decoded `MessageType4` (base station report), the
processed payload passes latitude and longitude through unconverted (no
`* 10000 / 60` scaling) and fixes horizontal_speed and course at `0.0`. -/
theorem c6_base_station_passthrough (d : BaseStationMsg) :
    getField (processedPayloadOf (.type4 d)) .latitude = some (.rat d.lat)
    ∧ getField (processedPayloadOf (.type4 d)) .longitude = some (.rat d.lon)
    ∧ getField (processedPayloadOf (.type4 d)) .horizontal_speed = some (.rat 0)
    ∧ getField (processedPayloadOf (.type4 d)) .course = some (.rat 0)
    ∧ getField (processedPayloadOf (.type4 d)) .altitude = some (.rat 0)
    ∧ getField (processedPayloadOf (.type4 d)) .vertical_speed = some (.rat 0) :=
  ⟨rfl, rfl, rfl, rfl, rfl, rfl⟩

/-- Claim C7: a complete sentence whose payload fails to decode with
`UnknownMessageException` produces exactly one raw-sentence publish, zero
decoded publishes and one error log entry, and the remaining lines are
processed from the same state, unaffected. -/
theorem c7_malformed_payload_contained (decodeOf : Line → DecodeOutcome)
    (sink : DataMsg → Bool) (st : LoopState) (l : Line) (ls : List Line) (m : String)
    (hc : (hasMarker l && hasCR l) = true)
    (hd : decodeOf l = DecodeOutcome.unknownMessageExc m) :
    runLines decodeOf sink st (l :: ls)
      = ((runLines decodeOf sink st ls).1,
         decodeFailEvents sink l m ++ (runLines decodeOf sink st ls).2.1,
         (runLines decodeOf sink st ls).2.2)
    ∧ List.countP isRawPub (decodeFailEvents sink l m) = 1
    ∧ List.countP isDecodedPub (decodeFailEvents sink l m) = 0
    ∧ List.countP isDecodeErrorLog (decodeFailEvents sink l m) = 1 := by
  refine ⟨?_, ?_, ?_, ?_⟩
  · simp only [runLines, hc, hd]
    rfl
  · rfl
  · rfl
  · rfl

/-- Claim C7 (witness): the malformed-payload behavior at a concrete
sentence. -/
theorem c7_malformed_payload_witness :
    (hasMarker sampleS && hasCR sampleS) = true
    ∧ runLines unknownExcDecode allOkSink initState [sampleS]
        = (initState, decodeFailEvents allOkSink sampleS "Unknown message type", none) := by
  have h := c7_malformed_payload_contained unknownExcDecode allOkSink initState sampleS []
    "Unknown message type" (by decide) rfl
  refine ⟨by decide, ?_⟩
  rw [h.1]
  have h0 : runLines unknownExcDecode allOkSink initState ([] : List Line)
      = (initState, [], none) := rfl
  rw [h0]
  simp

/-- Claim C8: a line that carries the AIS marker and ends with the `"\r"`
terminator is emitted immediately and the state — in particular the pending
buffer — is returned exactly as it was, whatever it held. -/
theorem c8_complete_sentence_frame (st : LoopState) (l : Line)
    (h1 : hasMarker l = true) (h2 : lastIs '\r' l = true) :
    processLine st l = (st, [l]) := by
  have hcr : hasCR l = true := lastIs_occursIn '\r' l h2
  simp [processLine, h1, hcr]

/-- Claim C8 (witness): a complete sentence processed while a fragment is
pending leaves the pending buffer holding that same fragment. -/
theorem c8_complete_sentence_frame_witness :
    processLine ⟨fragA, fragB⟩ sampleS = (⟨fragA, fragB⟩, [sampleS]) :=
  c8_complete_sentence_frame ⟨fragA, fragB⟩ sampleS (by decide) (by decide)

/-- Claim C9: as written, every line-processing step keeps
`payload_beginning` empty (the begin-fragment branch writes the differently
spelled `payload_beginng`), the end-fragment branch never fires, and over
any sequence of chunks the emitted sentences are exactly the individual
complete input lines — no sentence split across chunks or lines is ever
reassembled. -/
theorem c9_pending_buffer_stays_empty :
    (∀ (st : LoopState) (l : Line), st.payload_beginning = [] →
        ((processLine st l).1.payload_beginning = [] ∧ ∀ s ∈ (processLine st l).2, s = l))
    ∧ ∀ chunks : List Line,
        (feedAll initState chunks).1.payload_beginning = []
        ∧ (feedAll initState chunks).2
            = ((chunks.map (splitOnChar '\n')).flatten).filter
                (fun l => hasMarker l && hasCR l) := by
  constructor
  · intro st l h
    simp only [processLine]
    split_ifs with h1 h2 h3 h4
    · exact ⟨h, by simp⟩
    · exact ⟨h, by simp⟩
    · exact ⟨h, by simp⟩
    · exact absurd h h4
    · exact ⟨h, by simp⟩
  · have gen : ∀ (chunks : List Line) (st : LoopState), st.payload_beginning = [] →
        (feedAll st chunks).1.payload_beginning = []
        ∧ (feedAll st chunks).2
            = ((chunks.map (splitOnChar '\n')).flatten).filter
                (fun l => hasMarker l && hasCR l) := by
      intro chunks
      induction chunks with
      | nil => intro st h; exact ⟨h, rfl⟩
      | cons c cs ih =>
        intro st h
        have h1 := processLines_empty_pending (splitOnChar '\n' c) st h
        have h2 := ih (processLines st (splitOnChar '\n' c)).1 h1.1
        simp only [feedAll, feed]
        constructor
        · exact h2.1
        · simp [h1.2, h2.2, List.filter_append]
    exact fun chunks => gen chunks initState rfl

/-- Claim C9 (witness): processing a begin-fragment from the initial state
leaves the pending buffer empty and emits nothing. -/
theorem c9_pending_buffer_stays_empty_witness :
    (processLine initState fragA).1.payload_beginning = []
    ∧ ∀ s ∈ (processLine initState fragA).2, s = fragA :=
  c9_pending_buffer_stays_empty.1 initState fragA rfl

/-- Claim C10: the publish sequence of `process_serial_payload` does not
depend on the sink results (the boolean returned by `_send_data` for the
raw publish is discarded), the raw `"Binary AIS"` publish is the first
event and comes before the `decode` call for every decode outcome, and for
every successfully decoded message the `"Decoded AIS"` publish still occurs
afterwards. -/
theorem c10_raw_publish_result_ignored (sink sink' : DataMsg → Bool)
    (dec : DecodeOutcome) (m : DecodedMessage) (bp : Line) :
    (processSerialPayload sink dec bp).1.filter isPub
      = (processSerialPayload sink' dec bp).1.filter isPub
    ∧ (∃ rest, (processSerialPayload sink dec bp).1
        = Event.sendData (.binary bp) :: Event.logSendResult (sink (.binary bp)) (.binary bp)
          :: Event.decodeCall bp :: rest)
    ∧ Event.sendData (.decoded (processedPayloadOf m))
        ∈ (processSerialPayload sink (.ok m) bp).1 := by
  refine ⟨?_, ?_, ?_⟩
  · cases dec with
    | ok x => cases x <;> rfl
    | unknownMessageExc s => rfl
    | otherExc e => rfl
  · cases dec with
    | ok x => exact ⟨_, rfl⟩
    | unknownMessageExc s => exact ⟨_, rfl⟩
    | otherExc e => exact ⟨_, rfl⟩
  · cases m <;> simp [processSerialPayload, sendData, skipLogOf, processedPayloadOf]

end Daisy
